import Mathlib

/-!
Shallow embedding of the SVNFS virtual-filesystem adapter (svnfs.h / svnfs.c).

The C code is translated function by function:
* `svnfs_path_split` — the path codec, including the exact `strtol`-based
  parse and the error checks that are gated on the parsed value being zero;
* `svnfs_fuse_getattr`, `svnfs_fuse_open`, `svnfs_fuse_read`,
  `svnfs_fuse_readdir` — the four FUSE operations, with the process state
  (the `svnfs_cache_files` hash and the spool files on disk) passed
  explicitly, the Subversion RA session modelled as a record of oracles
  (a test double, as the spec suggests for observing backend calls), and
  the APR calls that can fail (`apr_thread_rwlock_rdlock` / `wrlock`,
  `apr_temp_dir_get`, `apr_file_mktemp`, `svn_stream_close`,
  `apr_file_close`, `apr_file_seek`) driven by failure-injection flags in
  an environment record.
Lock usage is recorded as a trace of events so that the locking discipline
is provable; `svn_ra_get_file` invocations are counted in the state.
-/

set_option autoImplicit false

namespace SVNFS

/-! ## Path codec: `svnfs_path_split` -/

/-- Model of `isspace` in the C default locale, as consulted by `strtol`
when skipping leading whitespace. -/
def c_isspace (c : Char) : Bool :=
  c = ' ' || c = '\t' || c = '\n' || c = '\x0b' || c = '\x0c' || c = '\r'

/-- Value of a run of decimal digit characters, most significant first. -/
def digitsToInt (ds : List Char) : Int :=
  ds.foldl (fun a c => a * 10 + (Int.ofNat (c.toNat - Char.toNat '0'))) 0

/-- Model of `strtol(nptr, endptr, 10)` on a character list: skip C whitespace, accept
an optional sign, consume the maximal run of decimal digits.  Returns the
parsed value, the remainder starting at `*endptr`, and the number of digits
consumed.  Per the C standard, when no conversion is performed the value is
`0` and `*endptr` is `nptr` itself (remainder = whole input, count = 0). -/
def strtol10 (l : List Char) : Int × List Char × Nat :=
  let l1 := l.dropWhile c_isspace
  match l1 with
  | '-' :: l2 =>
      let p := l2.span Char.isDigit
      if p.1 = [] then (0, l, 0) else (-(digitsToInt p.1), p.2, p.1.length)
  | '+' :: l2 =>
      let p := l2.span Char.isDigit
      if p.1 = [] then (0, l, 0) else (digitsToInt p.1, p.2, p.1.length)
  | _ =>
      let p := l1.span Char.isDigit
      if p.1 = [] then (0, l, 0) else (digitsToInt p.1, p.2, p.1.length)

/-- First character of the remainder, `'\0'` at end of string — this is what
the C code reads as `(*repos_path)[0]`. -/
def headChar (l : List Char) : Char := l.headD '\x00'

/-- Embedding of `svnfs_path_split` (svnfs.c, lines 498–536).  `none` models the C
function returning `0` (failure); `some (rev, repos_path)` models returning
`1` with the out-parameters set.

Faithful points worth noting:
* the two error checks (`endptr == path + 1`, i.e. no digits consumed, and
  `(*repos_path)[0] != '/'`, the invalid-character check) are BOTH inside
  `if (*rev == 0)`, so they only run when `strtol` returned zero;
* comparing `*repos_path` with `path + 1` is modelled as "zero digits
  consumed", which is exactly when `strtol` leaves `endptr` at `nptr`;
* the substitution of `"/"` for an empty remainder happens after those
  checks. -/
def svnfs_path_split (path : String) : Option (Int × String) :=
  match path.data with
  | [] => none
  | c :: rest =>
    if c ≠ '/' then none
    else if rest = [] then none
    else
      let r := strtol10 rest
      let rev := r.1
      let after := r.2.1
      let consumed := r.2.2
      if rev = 0 ∧ consumed = 0 then none
      else if rev = 0 ∧ headChar after ≠ '/' then none
      else if after = [] then some (rev, "/")
      else some (rev, String.mk after)

/-! ## Error codes (negated on return, as in the C sources) -/

def ENOENT : Int := 2
def EIO_errno : Int := 5
def ENOMEM : Int := 12
def EBUSY : Int := 16
def EPIPE : Int := 32

/-! ## Backend session, environment, state -/

/-- Model of `svn_node_kind_t` as far as `svnfs_fuse_getattr` distinguishes it:
its `switch` has cases for `svn_node_file` and `svn_node_dir` and a
`default` branch for everything else. -/
inductive NodeKind where
  | file
  | dir
  | other
  deriving DecidableEq, Repr

/-- The fields of `svn_dirent_t` that `svnfs_fuse_getattr` reads. -/
structure SvnDirent where
  size : Nat
  kind : NodeKind
  deriving DecidableEq, Repr

/-- Test double for the RA session (`svnfs_ra_session`): one oracle per
`svn_ra_*` call the adapter makes.  `none` models the call returning an
`svn_error_t*` (of any kind — the C code never inspects the error code,
it only tests `err != SVN_NO_ERROR`). -/
structure Backend where
  latest_revnum : Option Int
  stat : String → Int → Option SvnDirent
  get_file : String → Int → Option (List Nat)
  get_dir : String → Int → Option (List String)

/-- Failure-injection flags for the APR primitives the adapter calls, plus
the temporary directory returned by `apr_temp_dir_get`.  A `true` flag means
the corresponding call returns `APR_SUCCESS`. -/
structure Env where
  rdlock_ok : Bool
  wrlock_ok : Bool
  temp_dir_ok : Bool
  mktemp_ok : Bool
  stream_close_ok : Bool
  file_close_ok : Bool
  seek_ok : Bool
  read_close_ok : Bool
  temp_dir : String
  deriving DecidableEq, Repr

/-- Mutable process state: the `svnfs_cache_files` hash (virtual path →
spool-file path), the spool files on disk (path → byte content), the
fresh-name supply backing `apr_file_mktemp`, and a call counter for
`svn_ra_get_file` (the spec's "call counter on a test double"). -/
structure FSState where
  cache_files : List (String × String)
  disk : List (String × List Nat)
  temp_counter : Nat
  fetch_count : Nat
  deriving DecidableEq, Repr

/-- Model of `apr_hash_get` on an association list; later `apr_hash_set` calls are
modelled by prepending, which shadows older bindings exactly like a store. -/
def hash_get {α : Type} (k : String) : List (String × α) → Option α
  | [] => none
  | p :: t => if k = p.1 then some p.2 else hash_get k t

/-- The unique spool-file name produced by `apr_file_mktemp` from the
template `"%s/svnfs.XXXXXX"`.  `mktemp` promises a name not in use; we model
that promise with a deterministic fresh-name supply indexed by a counter
(the replaced template suffix grows with the counter, so names from
different counter values are distinct for a fixed temporary directory). -/
def mk_temp_name (dir : String) (n : Nat) : String :=
  dir ++ "/svnfs." ++ String.mk (List.replicate n 'x')

/-- Events recorded on the `svnfs_ra_session_lock`: a successful
`apr_thread_rwlock_rdlock`, a successful `apr_thread_rwlock_wrlock`, and an
`apr_thread_rwlock_unlock` call. -/
inductive LockEv where
  | rd
  | wr
  | un
  deriving DecidableEq, Repr

/-- A lock trace is balanced when every release happens while the lock is
held and the lock is no longer held at the end: acquisitions raise the held
depth, releases require and lower it, and the final depth is zero. -/
def lockBalanced : List LockEv → Nat → Bool
  | [], d => d == 0
  | LockEv.rd :: t, d => lockBalanced t (d + 1)
  | LockEv.wr :: t, d => lockBalanced t (d + 1)
  | LockEv.un :: t, d => d != 0 && lockBalanced t (d - 1)

/-! ## stat buffer -/

def S_IFREG : Nat := 0o100000
def S_IFDIR : Nat := 0o040000

/-- The `struct stat` fields `svnfs_fuse_getattr` fills. -/
structure StatBuf where
  st_mode : Nat
  st_size : Nat
  deriving DecidableEq, Repr

/-- The zeroed stat buffer produced by the `memset` at the top of
`svnfs_fuse_getattr`; error paths return it unchanged. -/
def zeroStat : StatBuf := { st_mode := 0, st_size := 0 }

/-- The `switch (dirent->kind)` of `svnfs_fuse_getattr`. -/
def modeOfKind : NodeKind → Nat
  | NodeKind.file => S_IFREG ||| 0o644
  | NodeKind.dir => S_IFDIR ||| 0o755
  | NodeKind.other => S_IFREG ||| 0o000

/-! ## FUSE operations -/

/-- Embedding of `svnfs_fuse_getattr` (svnfs.c, lines 254–298).  Returns the FUSE return
code, the stat buffer, and the lock trace.  The state is untouched by this
operation, so it is not threaded through. -/
def svnfs_fuse_getattr (env : Env) (B : Backend) (path : String) :
    Int × StatBuf × List LockEv :=
  if path = "/" then (0, { st_mode := S_IFDIR ||| 0o755, st_size := 0 }, [])
  else
    match svnfs_path_split path with
    | none => (-ENOENT, zeroStat, [])
    | some (rev, repos_path) =>
      if env.rdlock_ok = false then (-EBUSY, zeroStat, [])
      else
        match B.stat repos_path rev with
        | none => (-EPIPE, zeroStat, [LockEv.rd, LockEv.un])
        | some d =>
          (0, { st_mode := modeOfKind d.kind, st_size := d.size },
           [LockEv.rd, LockEv.un])

/-- Embedding of `svnfs_fuse_open` (svnfs.c, lines 300–382).  Returns the FUSE return
code, the new state, and the lock trace.

Translation notes, step by step against the C:
* malformed path → `-ENOENT` before anything else;
* `apr_hash_get` hit → immediate `0`, no lock, no backend call;
* `apr_temp_dir_get` failure → `-ENOMEM` (before taking the lock);
* `SVNFS_LOCK_WRITE` failure → `-EBUSY` (nothing held, so no event);
* `apr_file_mktemp` failure → unlock, `-ENOMEM`; on success the fresh
  spool path exists on disk as an empty file;
* `svn_ra_get_file` is counted, and its failure → unlock, `-ENOENT`
  (note: `-ENOENT`, the same code as "no such entry" — the C code does not
  distinguish transport failures here); success writes the content to disk;
* `svn_stream_close` failure → unlock, `-EIO`;
* `apr_file_close` failure → unlock, `-EIO`;
* only then `apr_hash_set` publishes the mapping and the lock is released
  with return `0`. -/
def svnfs_fuse_open (env : Env) (B : Backend) (st : FSState) (path : String) :
    Int × FSState × List LockEv :=
  match svnfs_path_split path with
  | none => (-ENOENT, st, [])
  | some (rev, repos_path) =>
    match hash_get path st.cache_files with
    | some _ => (0, st, [])
    | none =>
      if env.temp_dir_ok = false then (-ENOMEM, st, [])
      else if env.wrlock_ok = false then (-EBUSY, st, [])
      else if env.mktemp_ok = false then (-ENOMEM, st, [LockEv.wr, LockEv.un])
      else
        let cache_path := mk_temp_name env.temp_dir st.temp_counter
        let st1 : FSState :=
          { st with
            temp_counter := st.temp_counter + 1,
            disk := (cache_path, []) :: st.disk,
            fetch_count := st.fetch_count + 1 }
        match B.get_file repos_path rev with
        | none => (-ENOENT, st1, [LockEv.wr, LockEv.un])
        | some content =>
          let st2 : FSState := { st1 with disk := (cache_path, content) :: st1.disk }
          if env.stream_close_ok = false then (-EIO_errno, st2, [LockEv.wr, LockEv.un])
          else if env.file_close_ok = false then (-EIO_errno, st2, [LockEv.wr, LockEv.un])
          else
            (0, { st2 with cache_files := (path, cache_path) :: st2.cache_files },
             [LockEv.wr, LockEv.un])

/-- Embedding of `svnfs_fuse_read` (svnfs.c, lines 384–430).  Returns the FUSE return
code (`bytes_read` on success), the bytes copied into `buf`, and the lock
trace (this operation never touches `svnfs_ra_session_lock`).  `offset` is
the FUSE-supplied file offset (non-negative).  `apr_file_read_full` reads
`min len (size - offset)` bytes and reports `APR_EOF` when short, which the
C code accepts; seeking past end-of-file succeeds, so such a read returns
`0`.  The state is not modified (the spool file is opened and closed). -/
def svnfs_fuse_read (env : Env) (st : FSState) (path : String)
    (len : Nat) (offset : Nat) : Int × List Nat × List LockEv :=
  match hash_get path st.cache_files with
  | none => (-EIO_errno, [], [])
  | some cache_path =>
    match hash_get cache_path st.disk with
    | none => (-EIO_errno, [], [])
    | some content =>
      if env.seek_ok = false then (-EIO_errno, [], [])
      else
        let bytes_read := min len (content.length - offset)
        if env.read_close_ok = false then (-EIO_errno, [], [])
        else (Int.ofNat bytes_read, (content.drop offset).take len, [])

/-- The names emitted by `while (rev > 0) filler(buf, apr_itoa(pool, rev--),
NULL, 0)`, for a loop starting at `rev = n`: the decimal numerals of
`n, n-1, …, 1`. -/
def countdown : Nat → List String
  | 0 => []
  | n + 1 => Nat.repr (n + 1) :: countdown n

/-- Embedding of `svnfs_fuse_readdir` (svnfs.c, lines 432–492).  Returns the FUSE return
code, the list of names passed to `filler` in order, and the lock trace.
For the root, the `"."` / `".."` entries are emitted only after
`svn_ra_get_latest_revnum` has succeeded; for every other path they are
emitted before the lock is taken and before `svn_ra_get_dir` runs. -/
def svnfs_fuse_readdir (env : Env) (B : Backend) (path : String) :
    Int × List String × List LockEv :=
  if path = "/" then
    if env.rdlock_ok = false then (-EBUSY, [], [])
    else
      match B.latest_revnum with
      | none => (-EPIPE, [], [LockEv.rd, LockEv.un])
      | some rev =>
        (0, "." :: ".." :: countdown rev.toNat, [LockEv.rd, LockEv.un])
  else
    match svnfs_path_split path with
    | none => (-ENOENT, [], [])
    | some (rev, repos_path) =>
      if env.rdlock_ok = false then (-EBUSY, [".", ".."], [])
      else
        match B.get_dir repos_path rev with
        | none => (-EPIPE, [".", ".."], [LockEv.rd, LockEv.un])
        | some names => (0, "." :: ".." :: names, [LockEv.rd, LockEv.un])

/-! ## Concrete fixtures used by witnesses and counterexamples -/

/-- An environment in which every APR primitive succeeds, with `/tmp` as the
temporary directory. -/
def env_ok : Env :=
  { rdlock_ok := true, wrlock_ok := true, temp_dir_ok := true,
    mktemp_ok := true, stream_close_ok := true, file_close_ok := true,
    seek_ok := true, read_close_ok := true, temp_dir := "/tmp" }

/-- The initial state right after `main` runs `apr_hash_make`. -/
def st0 : FSState :=
  { cache_files := [], disk := [], temp_counter := 0, fetch_count := 0 }

/-- The bytes of the string `hello`, the file content of Scenario 2. -/
def hello : List Nat := [104, 101, 108, 108, 111]

/-- A healthy repository double: latest revision 5, every path a 5-byte
file whose content is `hello`, every directory containing `foo`. -/
def backend_demo : Backend :=
  { latest_revnum := some 5,
    stat := fun _ _ => some { size := 5, kind := NodeKind.file },
    get_file := fun _ _ => some hello,
    get_dir := fun _ _ => some ["foo"] }

/-- A repository double whose every call fails (e.g. the transport is
down). -/
def backend_down : Backend :=
  { latest_revnum := none,
    stat := fun _ _ => none,
    get_file := fun _ _ => none,
    get_dir := fun _ _ => none }

/-- A state in which `/3/foo` has already been opened: its spool file is on
disk with the 5-byte content `hello`. -/
def st_demo : FSState :=
  { cache_files := [("/3/foo", "/tmp/svnfs.cache")],
    disk := [("/tmp/svnfs.cache", hello)],
    temp_counter := 1, fetch_count := 1 }

/-- The state produced by a successful `svnfs_fuse_open env_ok backend_demo
st0 "/3/foo"`, written out explicitly. -/
def st_after : FSState :=
  { cache_files := [("/3/foo", mk_temp_name "/tmp" 0)],
    disk := [(mk_temp_name "/tmp" 0, hello), (mk_temp_name "/tmp" 0, [])],
    temp_counter := 1, fetch_count := 1 }

/-! ## Helper equations and sanity checks -/

@[simp] theorem ENOENT_eq : ENOENT = 2 := rfl
@[simp] theorem EIO_errno_eq : EIO_errno = 5 := rfl
@[simp] theorem ENOMEM_eq : ENOMEM = 12 := rfl
@[simp] theorem EBUSY_eq : EBUSY = 16 := rfl
@[simp] theorem EPIPE_eq : EPIPE = 32 := rfl

example : svnfs_path_split "/5/foo" = some (5, "/foo") := by decide
example : svnfs_path_split "/12" = some (12, "/") := by decide
example : svnfs_path_split "/0/" = some (0, "/") := by decide
example : svnfs_path_split "/abc" = none := by decide
example : svnfs_path_split "/" = none := by decide
example : svnfs_path_split "foo" = none := by decide
example : svnfs_path_split "" = none := by decide
example : svnfs_path_split "/0abc" = none := by decide
example : svnfs_path_split "/03/foo" = some (3, "/foo") := by decide

/-! ## Helper lemmas -/

/-- Two spool-file names drawn from consecutive states of the fresh-name
supply are distinct (for any fixed temporary directory). -/
theorem mk_temp_name_ne_succ (dir : String) (n : Nat) :
    mk_temp_name dir n ≠ mk_temp_name dir (n + 1) := by
  intro h
  have hl := congrArg String.length h
  simp [mk_temp_name, String.length_append] at hl

/-- A cache miss with every APR call succeeding and the backend delivering
`content` runs the full populate sequence: the spool file is written, the
mapping is published, the fetch counter advances by one, and the exclusive
lock is taken and released. -/
theorem open_populate_success (env : Env) (B : Backend) (st : FSState)
    (path rp : String) (rev : Int) (content : List Nat)
    (hsplit : svnfs_path_split path = some (rev, rp))
    (hmiss : hash_get path st.cache_files = none)
    (htd : env.temp_dir_ok = true) (hw : env.wrlock_ok = true)
    (hmk : env.mktemp_ok = true) (hsc : env.stream_close_ok = true)
    (hfc : env.file_close_ok = true)
    (hg : B.get_file rp rev = some content) :
    svnfs_fuse_open env B st path =
      (0,
       { cache_files :=
           (path, mk_temp_name env.temp_dir st.temp_counter) :: st.cache_files,
         disk :=
           (mk_temp_name env.temp_dir st.temp_counter, content) ::
           (mk_temp_name env.temp_dir st.temp_counter, []) :: st.disk,
         temp_counter := st.temp_counter + 1,
         fetch_count := st.fetch_count + 1 },
       [LockEv.wr, LockEv.un]) := by
  simp [svnfs_fuse_open, hsplit, hmiss, htd, hw, hmk, hg, hsc, hfc]

/-! ## Claim theorems -/

/-- C1: the claim states that `svnfs_path_split "/0"` succeeds with revision
0 and repository path `/`.  The code disagrees: because the error checks are
gated on the parsed value being 0, the `(*repos_path)[0] != '/'` test also
runs for the legitimate input `/0`, sees the terminating `'\0'` and rejects
the path ("Invalid character in revision").  This theorem evaluates the
embedded function at the failing input: the split fails. -/
theorem split_rejects_slash_zero : svnfs_path_split "/0" = none := by decide

/-- C2: the claim states that every input whose character after the consumed
digits is neither `/` nor end-of-string fails with Malformed.  The code
disagrees for nonzero revisions: the invalid-character check sits inside
`if (*rev == 0)`, so `/3abc` is accepted, returning revision 3 and the
repository path `abc` (without a leading slash).  This theorem evaluates the
embedded function at the failing input. -/
theorem split_accepts_garbage_after_nonzero_rev :
    svnfs_path_split "/3abc" = some (3, "abc") := by decide

/-- The root-listing loop emits exactly the numerals of `n, n-1, …, 1`. -/
theorem countdown_eq_range (n : Nat) :
    countdown n = (List.range n).reverse.map (fun i => Nat.repr (i + 1)) := by
  induction n with
  | zero => rfl
  | succ m ih => simp [countdown, List.range_succ, ih]

/-- C6: for every latest revision `N` returned by the backend, listing the
root yields exactly `.`, `..`, then the decimal numerals of every integer
from `N` down to `1` in descending order (the entry at index `i` of the tail
is the numeral of `N - i`, each of them at least `1`), so revision `0` never
appears as an entry. -/
theorem root_listing_counts_down_to_one (env : Env) (B : Backend) (N : Int)
    (hrd : env.rdlock_ok = true) (hl : B.latest_revnum = some N) :
    svnfs_fuse_readdir env B "/" =
      (0, "." :: ".." ::
        ((List.range N.toNat).reverse.map fun i => Nat.repr (i + 1)),
       [LockEv.rd, LockEv.un]) := by
  simp [svnfs_fuse_readdir, hrd, hl, countdown_eq_range]

/-- Witness for C6, reproducing Scenario 1 of the spec: latest revision 5
lists as `.`, `..`, `5`, `4`, `3`, `2`, `1`. -/
theorem root_listing_counts_down_to_one_witness :
    svnfs_fuse_readdir env_ok backend_demo "/" =
      (0, [".", "..", "5", "4", "3", "2", "1"], [LockEv.rd, LockEv.un]) := by
  rw [root_listing_counts_down_to_one env_ok backend_demo 5 rfl rfl]
  decide

/-- C7: for every path with a Cache Store entry whose spool file holds
`content`, a read of `len` bytes at `offset` returns the count actually
read, namely `min len (size - offset)`; in particular it returns `0` — and
never an error — whenever `offset` is at or beyond the file size. -/
theorem read_returns_min_len_remaining (env : Env) (st : FSState)
    (path cache_path : String) (content : List Nat) (len offset : Nat)
    (hc : hash_get path st.cache_files = some cache_path)
    (hd : hash_get cache_path st.disk = some content)
    (hs : env.seek_ok = true) (hcl : env.read_close_ok = true) :
    (svnfs_fuse_read env st path len offset).1 =
      Int.ofNat (min len (content.length - offset)) ∧
    (content.length ≤ offset → (svnfs_fuse_read env st path len offset).1 = 0) ∧
    0 ≤ (svnfs_fuse_read env st path len offset).1 := by
  have e : svnfs_fuse_read env st path len offset =
      (Int.ofNat (min len (content.length - offset)),
       (content.drop offset).take len, []) := by
    simp [svnfs_fuse_read, hc, hd, hs, hcl]
  refine ⟨by rw [e], ?_, by rw [e]; exact Int.ofNat_nonneg _⟩
  intro hoff
  rw [e]
  have h0 : content.length - offset = 0 := Nat.sub_eq_zero_of_le hoff
  simp [h0]

/-- Witness for C7, reproducing the tail of Scenario 2: reading 5 bytes at
offset 5 of the 5-byte spool file returns 0 bytes. -/
theorem read_returns_min_len_remaining_witness :
    (svnfs_fuse_read env_ok st_demo "/3/foo" 5 5).1 = 0 :=
  (read_returns_min_len_remaining env_ok st_demo "/3/foo" "/tmp/svnfs.cache"
    hello 5 5 (by decide) (by decide) rfl rfl).2.1 (by decide)

/-- C10: for a well-formed non-root path, `readdir` hands `.` and `..` to
the filler before contacting the backend, so a failing backend listing
returns the communication-failure code with those two entries already
emitted; for the root, a failing latest-revision call returns the error
before any entry is emitted. -/
theorem readdir_emits_dots_before_backend (env : Env) (B : Backend)
    (path : String) (rev : Int) (rp : String) :
    (svnfs_path_split path = some (rev, rp) → env.rdlock_ok = true →
      B.get_dir rp rev = none →
      svnfs_fuse_readdir env B path =
        (-EPIPE, [".", ".."], [LockEv.rd, LockEv.un])) ∧
    (env.rdlock_ok = true → B.latest_revnum = none →
      svnfs_fuse_readdir env B "/" = (-EPIPE, [], [LockEv.rd, LockEv.un])) := by
  constructor
  · intro hsplit hrd hdir
    have hne : path ≠ "/" := by
      intro e
      rw [e, show svnfs_path_split "/" = none from by decide] at hsplit
      cases hsplit
    simp [svnfs_fuse_readdir, hne, hsplit, hrd, hdir]
  · intro hrd hl
    simp [svnfs_fuse_readdir, hrd, hl]

/-- Witness for C10: with the transport down, listing `/3/foo` fails with
the communication-failure code after emitting exactly `.` and `..`. -/
theorem readdir_emits_dots_before_backend_witness :
    svnfs_fuse_readdir env_ok backend_down "/3/foo" =
      (-EPIPE, [".", ".."], [LockEv.rd, LockEv.un]) :=
  (readdir_emits_dots_before_backend env_ok backend_down "/3/foo" 3 "/foo").1
    (by decide) rfl rfl

/-- C8: lock balance.  On every input, every state and every
failure-injection environment, the lock trace of each of the four
operations is balanced: every successful acquisition (shared or exclusive)
is matched by a release before the operation returns, releases only happen
while the lock is held, and no operation returns still holding the lock. -/
theorem every_operation_balances_the_lock (env : Env) (B : Backend)
    (st : FSState) (path : String) (len offset : Nat) :
    lockBalanced (svnfs_fuse_getattr env B path).2.2 0 = true ∧
    lockBalanced (svnfs_fuse_open env B st path).2.2 0 = true ∧
    lockBalanced (svnfs_fuse_read env st path len offset).2.2 0 = true ∧
    lockBalanced (svnfs_fuse_readdir env B path).2.2 0 = true := by
  refine ⟨?_, ?_, ?_, ?_⟩
  · unfold svnfs_fuse_getattr
    repeat' split
    all_goals rfl
  · unfold svnfs_fuse_open
    repeat' split
    all_goals rfl
  · unfold svnfs_fuse_read
    repeat' split
    all_goals rfl
  · unfold svnfs_fuse_readdir
    repeat' split
    all_goals rfl

/-- C3: opening the same virtual path twice performs exactly one backend
fetch.  If an open of `path` starting from a state with no Cache Store
entry for it succeeds, then that open performed exactly one `get_file`
call, and every subsequent open of the same path string — under any
environment and any backend, which is therefore never consulted — is a
cache hit: it returns success immediately, leaves the state (Cache Store,
disk, counters) unchanged, and touches no lock. -/
theorem second_open_is_cache_hit (env env2 : Env) (B B2 : Backend)
    (st : FSState) (path : String) (st1 : FSState) (tr : List LockEv)
    (hmiss : hash_get path st.cache_files = none)
    (h : svnfs_fuse_open env B st path = (0, st1, tr)) :
    st1.fetch_count = st.fetch_count + 1 ∧
    svnfs_fuse_open env2 B2 st1 path = (0, st1, []) := by
  cases hsplit : svnfs_path_split path with
  | none => simp [svnfs_fuse_open, hsplit] at h
  | some pr =>
    obtain ⟨rev, rp⟩ := pr
    cases htd : env.temp_dir_ok with
    | false => simp [svnfs_fuse_open, hsplit, hmiss, htd] at h
    | true =>
      cases hw : env.wrlock_ok with
      | false => simp [svnfs_fuse_open, hsplit, hmiss, htd, hw] at h
      | true =>
        cases hmk : env.mktemp_ok with
        | false => simp [svnfs_fuse_open, hsplit, hmiss, htd, hw, hmk] at h
        | true =>
          cases hg : B.get_file rp rev with
          | none => simp [svnfs_fuse_open, hsplit, hmiss, htd, hw, hmk, hg] at h
          | some content =>
            cases hsc : env.stream_close_ok with
            | false =>
              simp [svnfs_fuse_open, hsplit, hmiss, htd, hw, hmk, hg, hsc] at h
            | true =>
              cases hfc : env.file_close_ok with
              | false =>
                simp [svnfs_fuse_open, hsplit, hmiss, htd, hw, hmk, hg, hsc,
                      hfc] at h
              | true =>
                have e := open_populate_success env B st path rp rev content
                  hsplit hmiss htd hw hmk hsc hfc hg
                rw [e] at h
                injection h with h0 h12
                injection h12 with h1 h2
                subst h1
                refine ⟨rfl, ?_⟩
                simp [svnfs_fuse_open, hsplit, hash_get]

/-- Witness for C3: opening `/3/foo` on the fresh state succeeds, producing
`st_after` with one fetch recorded; re-opening it returns success with the
state — Cache Store, disk and counters — unchanged and no lock touched. -/
theorem second_open_is_cache_hit_witness :
    st_after.fetch_count = st0.fetch_count + 1 ∧
    svnfs_fuse_open env_ok backend_demo st_after "/3/foo" = (0, st_after, []) :=
  second_open_is_cache_hit env_ok env_ok backend_demo backend_demo st0 "/3/foo"
    st_after [LockEv.wr, LockEv.un] (by decide) (by decide)

/-- C4: populate is atomic with respect to the Cache Store.  Whenever open
fails (any nonzero return: malformed path, temporary-directory or spool-file
allocation failure, lock failure, backend fetch failure, stream-close or
file-close failure), the Cache Store is exactly as before the call; and
whenever the Cache Store did change, the open succeeded, the change is
precisely one new mapping for this path, both closes succeeded, and the
spool file the mapping references holds the complete fetched content. -/
theorem populate_is_atomic (env : Env) (B : Backend) (st : FSState)
    (path : String) :
    ((svnfs_fuse_open env B st path).1 ≠ 0 →
      ((svnfs_fuse_open env B st path).2.1).cache_files = st.cache_files) ∧
    (((svnfs_fuse_open env B st path).2.1).cache_files ≠ st.cache_files →
      (svnfs_fuse_open env B st path).1 = 0 ∧
      ∃ rev rp content,
        svnfs_path_split path = some (rev, rp) ∧
        B.get_file rp rev = some content ∧
        env.stream_close_ok = true ∧ env.file_close_ok = true ∧
        ((svnfs_fuse_open env B st path).2.1).cache_files =
          (path, mk_temp_name env.temp_dir st.temp_counter) :: st.cache_files ∧
        hash_get (mk_temp_name env.temp_dir st.temp_counter)
          ((svnfs_fuse_open env B st path).2.1).disk = some content) := by
  cases hsplit : svnfs_path_split path with
  | none => simp [svnfs_fuse_open, hsplit]
  | some pr =>
    obtain ⟨rev, rp⟩ := pr
    cases hmiss : hash_get path st.cache_files with
    | some cp => simp [svnfs_fuse_open, hsplit, hmiss]
    | none =>
      cases htd : env.temp_dir_ok with
      | false => simp [svnfs_fuse_open, hsplit, hmiss, htd]
      | true =>
        cases hw : env.wrlock_ok with
        | false => simp [svnfs_fuse_open, hsplit, hmiss, htd, hw]
        | true =>
          cases hmk : env.mktemp_ok with
          | false => simp [svnfs_fuse_open, hsplit, hmiss, htd, hw, hmk]
          | true =>
            cases hg : B.get_file rp rev with
            | none => simp [svnfs_fuse_open, hsplit, hmiss, htd, hw, hmk, hg]
            | some content =>
              cases hsc : env.stream_close_ok with
              | false =>
                simp [svnfs_fuse_open, hsplit, hmiss, htd, hw, hmk, hg, hsc]
              | true =>
                cases hfc : env.file_close_ok with
                | false =>
                  simp [svnfs_fuse_open, hsplit, hmiss, htd, hw, hmk, hg, hsc,
                        hfc]
                | true =>
                  have e := open_populate_success env B st path rp rev content
                    hsplit hmiss htd hw hmk hsc hfc hg
                  rw [e]
                  refine ⟨fun h0 => absurd rfl h0,
                    fun _ => ⟨rfl, rev, rp, content, rfl, hg, rfl, rfl,
                      rfl, ?_⟩⟩
                  simp [hash_get]

/-- Witness for C4: with the transport down, opening `/3/foo` fails and the
Cache Store is untouched. -/
theorem populate_is_atomic_witness :
    ((svnfs_fuse_open env_ok backend_down st0 "/3/foo").2.1).cache_files =
      st0.cache_files :=
  (populate_is_atomic env_ok backend_down st0 "/3/foo").1 (by decide)

/-- C5 counterexample: with a cache miss and the backend fetch failing —
for any reason, a transport failure included, since the code only tests
`err != SVN_NO_ERROR` — open returns `-ENOENT`, the "no such entry" code,
which is not `-EPIPE`, the communication-failure code the other operations
use.  So a transport failure during the fetch of open is reported as "not
found", contradicting the claim. -/
theorem open_reports_fetch_failure_as_no_such_entry :
    (svnfs_fuse_open env_ok backend_down st0 "/3/foo").1 = -ENOENT ∧
    (-ENOENT : Int) ≠ -EPIPE := by decide

/-- C5 (amended): every backend error surfaced through getAttributes and
listDirectory (root and non-root alike) is reported as the
communication-failure code `-EPIPE`; read never contacts the backend; but a
backend error during the fetch of open — a transport failure included — is
reported as `-ENOENT` ("no such entry"), so on that one path the code does
not preserve the distinction between "does not exist" and "could not be
checked". -/
theorem backend_error_reporting (env : Env) (B : Backend) (st : FSState)
    (path : String) (rev : Int) (rp : String)
    (hsplit : svnfs_path_split path = some (rev, rp))
    (hrd : env.rdlock_ok = true) :
    (B.stat rp rev = none → (svnfs_fuse_getattr env B path).1 = -EPIPE) ∧
    (B.get_dir rp rev = none → (svnfs_fuse_readdir env B path).1 = -EPIPE) ∧
    (B.latest_revnum = none → (svnfs_fuse_readdir env B "/").1 = -EPIPE) ∧
    (hash_get path st.cache_files = none → env.temp_dir_ok = true →
      env.wrlock_ok = true → env.mktemp_ok = true →
      B.get_file rp rev = none →
      (svnfs_fuse_open env B st path).1 = -ENOENT) := by
  have hne : path ≠ "/" := by
    intro hroot
    rw [hroot, show svnfs_path_split "/" = none from by decide] at hsplit
    cases hsplit
  refine ⟨fun hb => ?_, fun hb => ?_, fun hb => ?_,
    fun hmiss htd hw hmk hg => ?_⟩
  · simp [svnfs_fuse_getattr, hne, hsplit, hrd, hb]
  · simp [svnfs_fuse_readdir, hne, hsplit, hrd, hb]
  · simp [svnfs_fuse_readdir, hrd, hb]
  · simp [svnfs_fuse_open, hsplit, hmiss, htd, hw, hmk, hg]

/-- Witness for the amended C5: with the transport down, stat of `/3/foo`
reports the communication-failure code. -/
theorem backend_error_reporting_witness :
    (svnfs_fuse_getattr env_ok backend_down "/3/foo").1 = -EPIPE :=
  (backend_error_reporting env_ok backend_down st0 "/3/foo" 3 "/foo"
    (by decide) rfl).1 rfl

/-- C9: the Cache Store is keyed on the exact virtual-path string, not on
the decoded pair.  `/3/foo` and `/03/foo` split to the same (revision,
repository path) pair, yet opening the first and then the second — each
starting as a cache miss — performs two backend fetches and creates two
distinct spool files, cached under the two distinct path-string keys. -/
theorem cache_is_keyed_on_exact_path_string (env : Env) (B : Backend)
    (st : FSState) (content : List Nat)
    (h1 : hash_get "/3/foo" st.cache_files = none)
    (h2 : hash_get "/03/foo" st.cache_files = none)
    (htd : env.temp_dir_ok = true) (hw : env.wrlock_ok = true)
    (hmk : env.mktemp_ok = true) (hsc : env.stream_close_ok = true)
    (hfc : env.file_close_ok = true)
    (hg : B.get_file "/foo" 3 = some content) :
    svnfs_path_split "/03/foo" = svnfs_path_split "/3/foo" ∧
    (svnfs_fuse_open env B st "/3/foo").1 = 0 ∧
    (svnfs_fuse_open env B (svnfs_fuse_open env B st "/3/foo").2.1
        "/03/foo").1 = 0 ∧
    ((svnfs_fuse_open env B (svnfs_fuse_open env B st "/3/foo").2.1
        "/03/foo").2.1).fetch_count = st.fetch_count + 2 ∧
    hash_get "/3/foo"
        ((svnfs_fuse_open env B (svnfs_fuse_open env B st "/3/foo").2.1
          "/03/foo").2.1).cache_files =
      some (mk_temp_name env.temp_dir st.temp_counter) ∧
    hash_get "/03/foo"
        ((svnfs_fuse_open env B (svnfs_fuse_open env B st "/3/foo").2.1
          "/03/foo").2.1).cache_files =
      some (mk_temp_name env.temp_dir (st.temp_counter + 1)) ∧
    mk_temp_name env.temp_dir st.temp_counter ≠
      mk_temp_name env.temp_dir (st.temp_counter + 1) := by
  have e1 : svnfs_path_split "/3/foo" = some (3, "/foo") := by decide
  have e2 : svnfs_path_split "/03/foo" = some (3, "/foo") := by decide
  have o1 := open_populate_success env B st "/3/foo" "/foo" 3 content
    e1 h1 htd hw hmk hsc hfc hg
  have hstA : (svnfs_fuse_open env B st "/3/foo").2.1 =
      { cache_files :=
          ("/3/foo", mk_temp_name env.temp_dir st.temp_counter) ::
            st.cache_files,
        disk := (mk_temp_name env.temp_dir st.temp_counter, content) ::
          (mk_temp_name env.temp_dir st.temp_counter, []) :: st.disk,
        temp_counter := st.temp_counter + 1,
        fetch_count := st.fetch_count + 1 } := by
    rw [o1]
  have hm2 : hash_get "/03/foo"
      ((svnfs_fuse_open env B st "/3/foo").2.1).cache_files = none := by
    rw [hstA]
    simpa [hash_get,
      show ("/03/foo" : String) ≠ "/3/foo" from by decide] using h2
  have o2 := open_populate_success env B
    ((svnfs_fuse_open env B st "/3/foo").2.1) "/03/foo" "/foo" 3 content
    e2 hm2 htd hw hmk hsc hfc hg
  rw [hstA] at o2
  refine ⟨e2.trans e1.symm, ?_, ?_, ?_, ?_, ?_, mk_temp_name_ne_succ _ _⟩
  · rw [o1]
  · rw [hstA, o2]
  · rw [hstA, o2]
  · rw [hstA, o2]
    simp [hash_get, show ("/3/foo" : String) ≠ "/03/foo" from by decide]
  · rw [hstA, o2]
    simp [hash_get]

/-- Witness for C9: after opening `/3/foo` and then `/03/foo` on the fresh
state, the Cache Store holds both keys, mapped to the two distinct
spool-file names drawn from the fresh-name supply. -/
theorem cache_is_keyed_on_exact_path_string_witness :
    hash_get "/03/foo"
      ((svnfs_fuse_open env_ok backend_demo
        (svnfs_fuse_open env_ok backend_demo st0 "/3/foo").2.1
        "/03/foo").2.1).cache_files = some (mk_temp_name "/tmp" 1) :=
  (cache_is_keyed_on_exact_path_string env_ok backend_demo st0 hello
    (by decide) (by decide) rfl rfl rfl rfl rfl rfl).2.2.2.2.2.1

end SVNFS
